import Mathlib

/-!
Verification of the adaptive content-extraction pipeline of
`src/new.py` (google_new_scraper).

The Python functions are shallowly embedded as executable Lean
definitions.  Strings are modelled through their character lists; the
whitespace and line-boundary character classes are the ASCII subsets of
the classes used by Python's `str.strip` / `re \s` / `str.splitlines`
(all text handled by the scraper and by the theorems below stays inside
this subset).
-/

set_option maxRecDepth 40000

namespace NewScraper

/-- Whitespace characters (ASCII subset of Python's `\s` / `str.strip`). -/
def isWs (c : Char) : Bool :=
  c = ' ' || c = '\t' || c = '\n' || c = '\r' || c = '\x0b' || c = '\x0c'

/-- Line-boundary characters (ASCII subset of `str.splitlines`). -/
def isLb (c : Char) : Bool :=
  c = '\n' || c = '\r' || c = '\x0b' || c = '\x0c'

/-- Python `str.strip`: drop whitespace from both ends. -/
def stripL (l : List Char) : List Char :=
  ((l.dropWhile isWs).reverse.dropWhile isWs).reverse

/-- Collapse every maximal whitespace run to a single space, the effect of
`re.sub(r"\s+", " ", ...)`.  The flag records whether the previous character
was part of a whitespace run already collapsed. -/
def collapseAux : List Char → Bool → List Char
  | [], _ => []
  | c :: cs, prevWs =>
    if isWs c then
      if prevWs then collapseAux cs true else ' ' :: collapseAux cs true
    else c :: collapseAux cs false

/-- `clean_text` from src/new.py line 39: `re.sub(r"\s+", " ", text.strip())`. -/
def clean_text (s : String) : String :=
  String.mk (collapseAux (stripL s.data) false)

/-- Python `str.lower` (ASCII). -/
def lowerL (l : List Char) : List Char := l.map Char.toLower

/-- Does the first list start the second one? -/
def startsWithL : List Char → List Char → Bool
  | [], _ => true
  | _ :: _, [] => false
  | a :: as, b :: bs => a = b && startsWithL as bs

/-- Python's `needle in hay` substring test. -/
def isSubL (needle hay : List Char) : Bool :=
  hay.tails.any (fun t => startsWithL needle t)

/-- The footer-phrase list of `remove_footer_lines` (src/new.py lines 52-60). -/
def footerPhrases : List String :=
  [ "download the", "log in", "sign up", "follow live", "subscribe",
    "read premium", "save your bookmarks"]

/-- The per-line test of `remove_footer_lines`:
`any(phrase.lower() in line.lower() for phrase in [...])`. -/
def lineHasPhrase (line : List Char) : Bool :=
  footerPhrases.any (fun ph => isSubL (lowerL ph.data) (lowerL line))

/-- Python `str.splitlines` (ASCII boundaries, `"\r\n"` counted once, no
trailing empty line for a terminal boundary).  `acc` holds the current line
reversed. -/
def splitlinesAux : List Char → List Char → List (List Char)
  | [], acc => if acc.isEmpty then [] else [acc.reverse]
  | [c], acc => if isLb c then [acc.reverse] else [(c :: acc).reverse]
  | c :: c2 :: cs, acc =>
    if c = '\r' && c2 = '\n' then acc.reverse :: splitlinesAux cs []
    else if isLb c then acc.reverse :: splitlinesAux (c2 :: cs) []
    else splitlinesAux (c2 :: cs) (c :: acc)

/-- `remove_footer_lines` from src/new.py lines 43-64: split into lines, strip
each, drop empty lines and lines containing a footer phrase, rejoin with
single spaces. -/
def remove_footer_lines (s : String) : String :=
  let cleaned := (splitlinesAux s.data []).filterMap (fun line =>
    let l := stripL line
    if l.isEmpty then none
    else if lineHasPhrase l then none
    else some l)
  String.mk (List.intercalate [ ' '] cleaned)

/-- The normalization composition used by every extraction path of
src/new.py: `text = clean_text(...)` followed by
`text = remove_footer_lines(text)` (e.g. lines 187-188, 241-242, 578-579). -/
def normalize (s : String) : String := remove_footer_lines (clean_text s)

/-- Modelled from the spec (section 4.1): footer-line filtering operates on
the pre-collapse line structure, and only afterwards are whitespace runs
collapsed.  This is the order the spec mandates, stated here for comparison
with the order the code actually uses (`normalize`). -/
def normalizeSpec (s : String) : String := clean_text (remove_footer_lines s)

/-- `CONTENT_MIN_LENGTH` from src/new.py line 17. -/
def CONTENT_MIN_LENGTH : Nat := 200

/-! HTML document model.  `get_page_content` parses a fetched page with
BeautifulSoup; the parsed page is a forest of element and text nodes.  An
element carries its tag, its `id` attribute (empty string when absent), its
`class` attribute token list, and its remaining attributes. -/

mutual
inductive Node : Type where
  | elem : String → String → List String → List (String × String) → NodeList → Node
  | text : String → Node
inductive NodeList : Type where
  | nil : NodeList
  | cons : Node → NodeList → NodeList
end

mutual
/-- Characters of `el.get_text()`: all text fragments below the node, in
document order, concatenated. -/
def nodeText : Node → List Char
  | Node.elem _ _ _ _ cs => nodesText cs
  | Node.text s => s.data
def nodesText : NodeList → List Char
  | NodeList.nil => []
  | NodeList.cons n ns => nodeText n ++ nodesText ns
end

mutual
/-- Characters of `el.get_text(strip=True)`: every text fragment stripped
before concatenation. -/
def nodeTextStrip : Node → List Char
  | Node.elem _ _ _ _ cs => nodesTextStrip cs
  | Node.text s => stripL s.data
def nodesTextStrip : NodeList → List Char
  | NodeList.nil => []
  | NodeList.cons n ns => nodeTextStrip n ++ nodesTextStrip ns
end

def get_text (n : Node) : String := String.mk (nodeText n)

mutual
/-- A node together with all element descendants, in document (pre-)order. -/
def descElems : Node → List Node
  | Node.elem t i cls attrs cs => Node.elem t i cls attrs cs :: elemsIn cs
  | Node.text _ => []
/-- All elements of a forest in document order. -/
def elemsIn : NodeList → List Node
  | NodeList.nil => []
  | NodeList.cons n ns => descElems n ++ elemsIn ns
end

/-- The CSS selector forms appearing in src/new.py, e.g. `"article"`,
`"div.artText"`, `"div#content"`, `'div[class*="content"]'`,
`'div[id*="story"]'`, `'div[data-vars-section="article"]'`,
`'[role="main"]'`. -/
inductive Sel : Type where
  | tag : String → Sel
  | tagClass : String → String → Sel
  | tagId : String → String → Sel
  | tagClassSub : String → String → Sel
  | tagIdSub : String → String → Sel
  | tagAttr : String → String → String → Sel
  | attrEq : String → String → Sel

/-- CSS matching of one selector against one element. -/
def selMatch (s : Sel) : Node → Bool
  | Node.text _ => false
  | Node.elem t i cls attrs _ =>
    match s with
    | Sel.tag t' => t = t'
    | Sel.tagClass t' c => t = t' && cls.contains c
    | Sel.tagId t' i' => t = t' && i = i'
    | Sel.tagClassSub t' c => t = t' && isSubL c.data (String.intercalate " " cls).data
    | Sel.tagIdSub t' i' => t = t' && isSubL i'.data i.data
    | Sel.tagAttr t' a v => t = t' && attrs.lookup a = some v
    | Sel.attrEq a v => attrs.lookup a = some v

/-- `soup.select_one(sel)`: first matching element in document order. -/
def select_one (s : Sel) (soup : NodeList) : Option Node :=
  (elemsIn soup).find? (selMatch s)

/-- `soup.find_all(tag)`: all elements with the tag, in document order. -/
def find_all (t : String) (soup : NodeList) : List Node :=
  (elemsIn soup).filter (selMatch (Sel.tag t))

mutual
/-- Elements matching `soup.select("div.release-body p")`: `p` elements with
a strict `div.release-body` ancestor, in document order.  The flag records
whether an ancestor matched. -/
def releaseBodyParas : Bool → Node → List Node
  | _, Node.text _ => []
  | inside, Node.elem t i cls attrs cs =>
    (if inside && selMatch (Sel.tag "p") (Node.elem t i cls attrs cs)
     then [Node.elem t i cls attrs cs] else []) ++
      releaseBodyParasIn
        (inside || selMatch (Sel.tagClass "div" "release-body") (Node.elem t i cls attrs cs)) cs
def releaseBodyParasIn : Bool → NodeList → List Node
  | _, NodeList.nil => []
  | inside, NodeList.cons n ns => releaseBodyParas inside n ++ releaseBodyParasIn inside ns
end

/-! The strategy cascades of src/new.py. -/

/-- One iteration of the per-selector loop every per-source scraper runs:
`select_one`, `clean_text`, `remove_footer_lines`, length gate. -/
def trySel (soup : NodeList) (sel : Sel) : Option String :=
  match select_one sel soup with
  | none => none
  | some el =>
    let text := remove_footer_lines (clean_text (get_text el))
    if text.length > CONTENT_MIN_LENGTH then some text else none

/-- The selector for-loop: result of the first selector whose gated text is
returned, if any. -/
def firstSel (soup : NodeList) : List Sel → Option String
  | [] => none
  | sel :: rest =>
    match trySel soup sel with
    | some t => some t
    | none => firstSel soup rest

/-- Paragraph aggregation as in `scrape_generic` (src/new.py lines 576-579)
and the final LiveMint fallback (lines 239-242): join the text of every `p`
element with single spaces, then normalize. -/
def paraAggText (soup : NodeList) : String :=
  remove_footer_lines (clean_text
    (String.intercalate " " ((find_all "p" soup).map get_text)))

/-- `scrape_generic` (src/new.py lines 574-582). -/
def scrape_generic (soup : NodeList) : String :=
  if (paraAggText soup).length > CONTENT_MIN_LENGTH then paraAggText soup
  else "Content not found"

/-- Selectors of `scrape_economic_times` (src/new.py line 337). -/
def economicTimesSelectors : List Sel :=
  [ Sel.tagClass "div" "artText", Sel.tagClass "div" "article_body",
    Sel.tagClass "div" "Normal", Sel.tagClass "section" "artText"]

/-- `scrape_economic_times` (src/new.py lines 335-345): selector loop, then
the sentinel. -/
def scrape_economic_times (soup : NodeList) : String :=
  (firstSel soup economicTimesSelectors).getD "Content not found"

/-- Selectors of `scrape_livemint_enhanced` (src/new.py lines 145-180). -/
def livemintSelectors : List Sel :=
  [ Sel.tagAttr "div" "data-vars-section" "article",
    Sel.tagClass "div" "contentSec", Sel.tagClass "div" "mainArea",
    Sel.tagClass "div" "textRubik", Sel.tagClassSub "div" "articleBody",
    Sel.tagClass "div" "articlePage", Sel.tagClass "div" "FirstEle",
    Sel.tagClass "div" "paywall", Sel.tagClass "div" "main-content",
    Sel.tagClass "div" "article-content", Sel.tagClass "div" "story-content",
    Sel.tagId "div" "content", Sel.tagClass "div" "content",
    Sel.tag "article", Sel.tag "main", Sel.attrEq "role" "main",
    Sel.tagClass "div" "storyContent", Sel.tagClass "div" "storyDetails",
    Sel.tagClass "div" "story-body", Sel.tagClass "div" "article-body",
    Sel.tagClass "div" "post-content", Sel.tagClass "div" "entry-content",
    Sel.tagClass "section" "article", Sel.tagClass "section" "story",
    Sel.tagClassSub "div" "content", Sel.tagClassSub "div" "article",
    Sel.tagClassSub "div" "story", Sel.tagClassSub "div" "text",
    Sel.tagIdSub "div" "content", Sel.tagIdSub "div" "article",
    Sel.tagIdSub "div" "story"]

/-- The skip-word list of the largest-text-block fallback (src/new.py
lines 215-224). -/
def skipWords : List String :=
  [ "advertisement", "sponsored", "trending now", "latest news",
    "follow us", "newsletter", "subscription", "terms of use"]

/-- One step of the largest-text-block loop (src/new.py lines 207-229):
keep the longest normalized div text that passes the gate and carries no
skip word. -/
def livemintFold (best : String × Nat) (d : Node) : String × Nat :=
  let text := remove_footer_lines (clean_text (get_text d))
  if text.length > best.2 && text.length > CONTENT_MIN_LENGTH then
    if skipWords.any (fun w => isSubL (lowerL w.data) (lowerL text.data)) then best
    else (text, text.length)
  else best

/-- The largest-text-block fallback over all `div` elements. -/
def livemintBest (soup : NodeList) : String :=
  ((find_all "div" soup).foldl livemintFold ("", 0)).1

/-- `scrape_livemint_enhanced` (src/new.py lines 140-251): selector loop,
largest text block, paragraph aggregation, sentinel. -/
def scrape_livemint_enhanced (soup : NodeList) : String :=
  match firstSel soup livemintSelectors with
  | some t => t
  | none =>
    if livemintBest soup ≠ "" then livemintBest soup
    else if (paraAggText soup).length > CONTENT_MIN_LENGTH then paraAggText soup
    else "Content not found"

/-- `scrape_livemint` (src/new.py lines 348-350) delegates to the enhanced
scraper. -/
def scrape_livemint (soup : NodeList) : String := scrape_livemint_enhanced soup

/-- Selectors of `scrape_pr_newswire` (src/new.py lines 306-312). -/
def prNewswireSelectors : List Sel :=
  [ Sel.tagClass "div" "content-release", Sel.tagClass "div" "release-body",
    Sel.tagId "div" "main-content", Sel.tagId "div" "newsContent",
    Sel.tag "article"]

/-- `scrape_pr_newswire` (src/new.py lines 304-332): selector loop, then a
paragraph fallback under `div.release-body` that applies `clean_text` only. -/
def scrape_pr_newswire (soup : NodeList) : String :=
  match firstSel soup prNewswireSelectors with
  | some t => t
  | none =>
    let paragraphs := releaseBodyParasIn false soup
    if paragraphs.isEmpty then "Content not found"
    else
      let text := clean_text (String.intercalate " "
        (paragraphs.map (fun p => String.mk (nodeTextStrip p))))
      if text.length > CONTENT_MIN_LENGTH then text else "Content not found"

/-- The candidate text of the PR Newswire paragraph fallback (src/new.py
lines 323-327): `clean_text` of the stripped paragraph texts joined with
single spaces — the same expression `scrape_pr_newswire` gates in its
fallback branch. -/
def prFallbackText (soup : NodeList) : String :=
  clean_text (String.intercalate " "
    ((releaseBodyParasIn false soup).map (fun p => String.mk (nodeTextStrip p))))

/-- `scrape_thehindu` (src/new.py lines 353-367). -/
def scrape_thehindu (soup : NodeList) : String :=
  (firstSel soup
    [ Sel.tagClass "div" "articlebodycontent", Sel.tagClassSub "div" "article-body",
      Sel.tagAttr "div" "itemprop" "articleBody"]).getD "Content not found"

/-- `scrape_zee_news` (src/new.py lines 370-385). -/
def scrape_zee_news (soup : NodeList) : String :=
  (firstSel soup
    [ Sel.tagClass "div" "article-content", Sel.tagId "div" "story",
      Sel.tagClass "div" "articleText", Sel.tagClass "div" "newsDetails"]).getD
    "Content not found"

/-- `scrape_hindustan_times` (src/new.py lines 388-398). -/
def scrape_hindustan_times (soup : NodeList) : String :=
  (firstSel soup
    [ Sel.tagClass "div" "storyDetails", Sel.tagClass "div" "htImport",
      Sel.tagClassSub "div" "detail-body"]).getD "Content not found"

/-- `scrape_india_today` (src/new.py lines 401-411). -/
def scrape_india_today (soup : NodeList) : String :=
  (firstSel soup
    [ Sel.tagId "div" "story", Sel.tagClass "div" "description",
      Sel.tagClass "div" "article-body", Sel.tagId "div" "story-left"]).getD
    "Content not found"

/-- `scrape_india_tv_news` (src/new.py lines 414-424). -/
def scrape_india_tv_news (soup : NodeList) : String :=
  (firstSel soup
    [ Sel.tagClass "div" "article_content", Sel.tagId "div" "articleBody",
      Sel.tagClass "div" "story-content"]).getD "Content not found"

/-- `scrape_times_of_india` (src/new.py lines 427-437). -/
def scrape_times_of_india (soup : NodeList) : String :=
  (firstSel soup
    [ Sel.tagClass "div" "Normal", Sel.tagClass "div" "_s30J",
      Sel.tagClass "div" "article_content"]).getD "Content not found"

/-- `scrape_et_now` (src/new.py lines 440-450). -/
def scrape_et_now (soup : NodeList) : String :=
  (firstSel soup
    [ Sel.tagClass "div" "article__content", Sel.tagClass "div" "content_box",
      Sel.tagClass "div" "article_body"]).getD "Content not found"

/-- `scrape_indian_express` (src/new.py lines 453-463). -/
def scrape_indian_express (soup : NodeList) : String :=
  (firstSel soup
    [ Sel.tagClass "div" "full-details", Sel.tagClass "div" "ie-first-para",
      Sel.tagClass "div" "article-details"]).getD "Content not found"

/-- `scrape_news18` (src/new.py lines 466-476). -/
def scrape_news18 (soup : NodeList) : String :=
  (firstSel soup
    [ Sel.tagClass "div" "article_container", Sel.tagId "div" "article_body",
      Sel.tagClass "div" "storyContent"]).getD "Content not found"

/-- `scrape_business_standard` (src/new.py lines 479-489). -/
def scrape_business_standard (soup : NodeList) : String :=
  (firstSel soup
    [ Sel.tagClass "div" "storyContent", Sel.tagId "div" "story-content",
      Sel.tagClass "div" "article-content"]).getD "Content not found"

/-- `scrape_deccan_herald` (src/new.py lines 492-502). -/
def scrape_deccan_herald (soup : NodeList) : String :=
  (firstSel soup
    [ Sel.tagClass "div" "article-main", Sel.tagClass "div" "field-items",
      Sel.tagClass "div" "article-content"]).getD "Content not found"

/-- `scrape_firstpost` (src/new.py lines 505-515). -/
def scrape_firstpost (soup : NodeList) : String :=
  (firstSel soup
    [ Sel.tagClass "div" "text-copy", Sel.tagClass "div" "article-full-content",
      Sel.tagClass "div" "main-article"]).getD "Content not found"

/-- `scrape_the_print` (src/new.py lines 518-532). -/
def scrape_the_print (soup : NodeList) : String :=
  (firstSel soup
    [ Sel.tagClass "div" "tdb_single_post_content", Sel.tagClass "div" "content-wrap",
      Sel.tagClass "div" "td-post-content"]).getD "Content not found"

/-- `scrape_the_wire` (src/new.py lines 535-545). -/
def scrape_the_wire (soup : NodeList) : String :=
  (firstSel soup
    [ Sel.tagClass "div" "article-content", Sel.tagId "div" "article_content",
      Sel.tagClass "div" "td-post-content"]).getD "Content not found"

/-- `scrape_moneycontrol` (src/new.py lines 548-558). -/
def scrape_moneycontrol (soup : NodeList) : String :=
  (firstSel soup
    [ Sel.tagId "div" "article-main", Sel.tagClass "div" "content_wrapper",
      Sel.tagId "div" "story-main"]).getD "Content not found"

/-- `scrape_free_press_journal` (src/new.py lines 561-571). -/
def scrape_free_press_journal (soup : NodeList) : String :=
  (firstSel soup
    [ Sel.tagClass "div" "article-detail", Sel.tagId "div" "story-content",
      Sel.tagClass "div" "main-article-content"]).getD "Content not found"

/-- `get_scraper_for_source` (src/new.py lines 585-607): the source-name
dispatch table with `scrape_generic` as default. -/
def get_scraper_for_source (source : String) : NodeList → String :=
  if source = "PR Newswire" then scrape_pr_newswire
  else if source = "Economic Times" then scrape_economic_times
  else if source = "LiveMint" then scrape_livemint
  else if source = "The Hindu" then scrape_thehindu
  else if source = "Zee News" then scrape_zee_news
  else if source = "Hindustan Times" then scrape_hindustan_times
  else if source = "India Today" then scrape_india_today
  else if source = "India TV News" then scrape_india_tv_news
  else if source = "Times of India" then scrape_times_of_india
  else if source = "ET Now" then scrape_et_now
  else if source = "Indian Express" then scrape_indian_express
  else if source = "News18" then scrape_news18
  else if source = "Business Standard" then scrape_business_standard
  else if source = "Deccan Herald" then scrape_deccan_herald
  else if source = "Firstpost" then scrape_firstpost
  else if source = "The Print" then scrape_the_print
  else if source = "The Wire" then scrape_the_wire
  else if source = "Moneycontrol" then scrape_moneycontrol
  else if source = "Free Press Journal" then scrape_free_press_journal
  else scrape_generic

/-- The Article dictionary `{"url", "source", "content"}` of src/new.py. -/
structure Article where
  url : String
  source : String
  content : String
deriving DecidableEq, Repr

/-- `scrape_article` (src/new.py lines 610-615).  `get_page_content` performs
the network fetch and returns a parsed document, or `None` on a network
error, a non-success status or a non-`text/html` content type; its outcome is
the `fetched` argument here. -/
def scrape_article (url source : String) (fetched : Option NodeList) : Article :=
  match fetched with
  | none => { url := url, source := source, content := "" }
  | some soup => { url := url, source := source, content := get_scraper_for_source source soup }

/-! Persistence: `save_to_json` (src/new.py lines 618-635).  The per-source
JSON file is read (a missing file or a JSON parse error both yield the empty
collection), the batch is filtered against the existing URL set, and the file
is rewritten only when the filtered batch is nonempty. -/

inductive FileState : Type where
  | missing
  | unparsable
  | parsed : List Article → FileState
deriving DecidableEq, Repr

/-- Loading the existing collection (src/new.py lines 621-628). -/
def loadExisting : FileState → List Article
  | FileState.missing => []
  | FileState.unparsable => []
  | FileState.parsed l => l

/-- The filtered batch `[a for a in articles if a["url"] not in urls]`
(src/new.py lines 629-630). -/
def newArticlesOf (existing articles : List Article) : List Article :=
  articles.filter (fun a => decide (a.url ∉ existing.map (fun e => e.url)))

/-- `save_to_json` as a transition on the per-source file, returning the new
file state together with the number of articles written (the count the
function logs). -/
def save_to_json (file : FileState) (articles : List Article) : FileState × Nat :=
  let newArticles := newArticlesOf (loadExisting file) articles
  if newArticles.isEmpty then (file, 0)
  else (FileState.parsed (loadExisting file ++ newArticles), newArticles.length)

/-! Concrete fixtures used by counterexamples and witnesses. -/

def pNode (s : String) : Node :=
  Node.elem "p" "" [] [] (NodeList.cons (Node.text s) NodeList.nil)

/-- A document with no structural markers: one bare `div` holding one `p`
with 250 characters of text. -/
def etCounterDoc : NodeList :=
  NodeList.cons
    (Node.elem "div" "" [] [] (NodeList.cons (pNode (String.mk (List.replicate 250 'a'))) NodeList.nil))
    NodeList.nil

/-- A document whose aggregated paragraph text normalizes to exactly 200
characters. -/
def doc200 : NodeList :=
  NodeList.cons (pNode (String.mk (List.replicate 200 'a'))) NodeList.nil

/-- A document whose aggregated paragraph text normalizes to exactly 201
characters. -/
def doc201 : NodeList :=
  NodeList.cons (pNode (String.mk (List.replicate 201 'a'))) NodeList.nil

/-- A PR Newswire page whose fallback text has exactly 200 characters: the
`div.release-body` selector tier rejects it because its normalized text
contains the footer phrase "subscribe" (footer filtering empties it), while
the paragraph fallback — which applies `clean_text` only — keeps all 200
characters. -/
def prDoc200 : NodeList :=
  NodeList.cons
    (Node.elem "div" "" [ "release-body"] []
      (NodeList.cons
        (pNode (String.mk ("subscribe ".data ++ List.replicate 190 'a')))
        NodeList.nil))
    NodeList.nil

/-- Like `prDoc200` with a 201-character fallback text. -/
def prDoc201 : NodeList :=
  NodeList.cons
    (Node.elem "div" "" [ "release-body"] []
      (NodeList.cons
        (pNode (String.mk ("subscribe ".data ++ List.replicate 191 'a')))
        NodeList.nil))
    NodeList.nil

def A1 : Article :=
  { url := "https://example.com/a1", source := "LiveMint", content := "alpha" }

def A2 : Article :=
  { url := "https://example.com/a2", source := "LiveMint", content := "beta" }

/-- An article carrying the cascade-exhaustion sentinel as content. -/
def A3 : Article :=
  { url := "https://example.com/a3", source := "LiveMint", content := "Content not found" }

/-- An article carrying the fetch-failure empty content. -/
def A4 : Article :=
  { url := "https://example.com/a4", source := "LiveMint", content := "" }

/-! General list helpers. -/

theorem length_dropWhile_le {α : Type} (p : α → Bool) (l : List α) :
    (l.dropWhile p).length ≤ l.length := by
  induction l with
  | nil => simp
  | cons a as ih =>
    by_cases h : p a
    · rw [List.dropWhile_cons]
      simp only [h, if_true]
      exact Nat.le_trans ih (Nat.le_succ _)
    · simp [List.dropWhile_cons, h]

theorem dropWhile_head_false {α : Type} {p : α → Bool} {l : List α}
    (h : l.dropWhile p = l) : ∀ c, l.head? = some c → p c = false := by
  intro c hc
  cases l with
  | nil => simp at hc
  | cons a as =>
    simp only [List.head?_cons, Option.some.injEq] at hc
    subst hc
    by_contra hp
    rw [Bool.not_eq_false] at hp
    rw [List.dropWhile_cons, if_pos hp] at h
    have h1 := congrArg List.length h
    simp only [List.length_cons] at h1
    have h2 := length_dropWhile_le p as
    omega

theorem dropWhile_eq_self_of_head {α : Type} (p : α → Bool) (l : List α)
    (h : ∀ c, l.head? = some c → p c = false) : l.dropWhile p = l := by
  cases l with
  | nil => rfl
  | cons a as =>
    rw [List.dropWhile_cons]
    simp [h a rfl]

theorem head?_dropWhile {α : Type} (p : α → Bool) (l : List α) :
    ∀ c, (l.dropWhile p).head? = some c → p c = false := by
  induction l with
  | nil => intro c hc; simp at hc
  | cons a as ih =>
    intro c hc
    rw [List.dropWhile_cons] at hc
    by_cases h : p a
    · rw [if_pos h] at hc
      exact ih c hc
    · rw [if_neg h] at hc
      simp only [List.head?_cons, Option.some.injEq] at hc
      subst hc
      simpa using h

theorem getLast?_cons_of_ne_nil {α : Type} (x : α) {l : List α} (h : l ≠ []) :
    (x :: l).getLast? = l.getLast? := by
  cases l with
  | nil => exact absurd rfl h
  | cons y ys => exact List.getLast?_cons_cons

theorem mem_of_getLast?_eq {α : Type} {l : List α} {c : α}
    (h : l.getLast? = some c) : c ∈ l := by
  have h2 : l.reverse.head? = some c := by rw [List.head?_reverse]; exact h
  cases hr : l.reverse with
  | nil => rw [hr] at h2; simp at h2
  | cons a as =>
    rw [hr] at h2
    simp only [List.head?_cons, Option.some.injEq] at h2
    have h3 : c ∈ l.reverse := by rw [hr, ← h2]; exact List.mem_cons_self _ _
    simpa using h3

/-! Properties of `collapseAux` (the whitespace-collapsing pass of
`clean_text`). -/

theorem lb_ws {c : Char} (h : isLb c = true) : isWs c = true := by
  simp only [isLb, Bool.or_eq_true, decide_eq_true_eq] at h
  simp only [isWs, Bool.or_eq_true, decide_eq_true_eq]
  tauto

theorem collapseAux_ws_space (l : List Char) (b : Bool) :
    ∀ c ∈ collapseAux l b, isWs c = true → c = ' ' := by
  induction l generalizing b with
  | nil => intro c hc; simp [collapseAux] at hc
  | cons a as ih =>
    intro c hc hw
    by_cases ha : isWs a = true
    · cases b with
      | true =>
        rw [show collapseAux (a :: as) true = collapseAux as true by
          simp [collapseAux, ha]] at hc
        exact ih true c hc hw
      | false =>
        rw [show collapseAux (a :: as) false = ' ' :: collapseAux as true by
          simp [collapseAux, ha]] at hc
        rcases List.mem_cons.mp hc with h1 | h2
        · exact h1
        · exact ih true c h2 hw
    · rw [show collapseAux (a :: as) b = a :: collapseAux as false by
        simp [collapseAux, ha]] at hc
      rcases List.mem_cons.mp hc with h1 | h2
      · subst h1; exact absurd hw ha
      · exact ih false c h2 hw

theorem collapseAux_not_lb (l : List Char) (b : Bool) :
    ∀ c ∈ collapseAux l b, isLb c = false := by
  intro c hc
  by_contra h
  rw [Bool.not_eq_false] at h
  have hsp := collapseAux_ws_space l b c hc (lb_ws h)
  subst hsp
  exact absurd h (by decide)

theorem collapseAux_idem (l : List Char) (b : Bool) :
    collapseAux (collapseAux l b) b = collapseAux l b := by
  induction l generalizing b with
  | nil => rfl
  | cons a as ih =>
    by_cases ha : isWs a = true
    · cases b with
      | true =>
        rw [show collapseAux (a :: as) true = collapseAux as true by
          simp [collapseAux, ha]]
        exact ih true
      | false =>
        rw [show collapseAux (a :: as) false = ' ' :: collapseAux as true by
          simp [collapseAux, ha]]
        rw [show collapseAux (' ' :: collapseAux as true) false
            = ' ' :: collapseAux (collapseAux as true) true by
          simp [collapseAux, show isWs ' ' = true by decide]]
        rw [ih true]
    · rw [show collapseAux (a :: as) b = a :: collapseAux as false by
        simp [collapseAux, ha]]
      rw [show collapseAux (a :: collapseAux as false) b
          = a :: collapseAux (collapseAux as false) false by
        simp [collapseAux, ha]]
      rw [ih false]

theorem collapseAux_ne_nil {l : List Char} (b : Bool)
    (h : ∃ c ∈ l, isWs c = false) : collapseAux l b ≠ [] := by
  induction l generalizing b with
  | nil => simp at h
  | cons a as ih =>
    by_cases ha : isWs a = true
    · have h' : ∃ c ∈ as, isWs c = false := by
        rcases h with ⟨c, hc, hcw⟩
        rcases List.mem_cons.mp hc with h1 | h2
        · subst h1; rw [ha] at hcw; cases hcw
        · exact ⟨c, h2, hcw⟩
      cases b with
      | true =>
        rw [show collapseAux (a :: as) true = collapseAux as true by
          simp [collapseAux, ha]]
        exact ih true h'
      | false =>
        rw [show collapseAux (a :: as) false = ' ' :: collapseAux as true by
          simp [collapseAux, ha]]
        simp
    · rw [show collapseAux (a :: as) b = a :: collapseAux as false by
        simp [collapseAux, ha]]
      simp

theorem collapseAux_last (l : List Char) (b : Bool)
    (h : ∀ c, l.getLast? = some c → isWs c = false) :
    ∀ c, (collapseAux l b).getLast? = some c → isWs c = false := by
  induction l generalizing b with
  | nil => intro c hc; simp [collapseAux] at hc
  | cons a as ih =>
    cases as with
    | nil =>
      have ha : isWs a = false := h a (by simp)
      intro c hc
      rw [show collapseAux [a] b = [a] by simp [collapseAux, ha]] at hc
      simp only [List.getLast?_singleton, Option.some.injEq] at hc
      subst hc
      exact ha
    | cons a2 as2 =>
      have h' : ∀ c, (a2 :: as2).getLast? = some c → isWs c = false := by
        intro c hc
        apply h c
        rw [List.getLast?_cons_cons]
        exact hc
      have hne : ∃ c ∈ a2 :: as2, isWs c = false := by
        cases hg : (a2 :: as2).getLast? with
        | none =>
          have : a2 :: as2 ≠ [] := by simp
          rw [List.getLast?_eq_none_iff] at hg
          exact absurd hg this
        | some c => exact ⟨c, mem_of_getLast?_eq hg, h' c hg⟩
      intro c hc
      by_cases ha : isWs a = true
      · cases b with
        | true =>
          rw [show collapseAux (a :: a2 :: as2) true = collapseAux (a2 :: as2) true by
            simp [collapseAux, ha]] at hc
          exact ih true h' c hc
        | false =>
          rw [show collapseAux (a :: a2 :: as2) false
              = ' ' :: collapseAux (a2 :: as2) true by
            simp [collapseAux, ha]] at hc
          rw [getLast?_cons_of_ne_nil _ (collapseAux_ne_nil true hne)] at hc
          exact ih true h' c hc
      · rw [show collapseAux (a :: a2 :: as2) b
            = a :: collapseAux (a2 :: as2) false by
          simp [collapseAux, ha]] at hc
        rw [getLast?_cons_of_ne_nil _ (collapseAux_ne_nil false hne)] at hc
        exact ih false h' c hc

theorem dropWhile_collapseAux (l : List Char) (h : l.dropWhile isWs = l) :
    (collapseAux l false).dropWhile isWs = collapseAux l false := by
  cases l with
  | nil => rfl
  | cons a as =>
    have ha : isWs a = false := dropWhile_head_false h a rfl
    rw [show collapseAux (a :: as) false = a :: collapseAux as false by
      simp [collapseAux, ha]]
    rw [List.dropWhile_cons]
    simp [ha]

/-! Properties of `stripL` (Python `str.strip`). -/

theorem stripL_head (x : List Char) :
    ∀ c, (stripL x).head? = some c → isWs c = false := by
  intro c hc
  unfold stripL at hc
  rw [List.head?_reverse] at hc
  have hz : (x.dropWhile isWs).reverse.dropWhile isWs ≠ [] := by
    intro hnil
    rw [hnil] at hc
    simp at hc
  have hw : ((x.dropWhile isWs).reverse).getLast? = some c := by
    conv_lhs =>
      rw [← @List.takeWhile_append_dropWhile _ isWs ((x.dropWhile isWs).reverse)]
    rw [List.getLast?_append_of_ne_nil _ hz]
    exact hc
  rw [List.getLast?_reverse] at hw
  exact head?_dropWhile isWs x c hw

theorem stripL_eq_dropWhile_self (x : List Char) :
    (stripL x).dropWhile isWs = stripL x :=
  dropWhile_eq_self_of_head _ _ (stripL_head x)

theorem stripL_last (x : List Char) :
    ∀ c, (stripL x).getLast? = some c → isWs c = false := by
  intro c hc
  unfold stripL at hc
  rw [List.getLast?_reverse] at hc
  exact head?_dropWhile _ _ c hc

/-! Properties of `clean_text`. -/

theorem clean_text_data (s : String) :
    (clean_text s).data = collapseAux (stripL s.data) false := rfl

theorem stripL_eq_self {l : List Char}
    (h1 : l.dropWhile isWs = l)
    (h2 : l.reverse.dropWhile isWs = l.reverse) :
    stripL l = l := by
  unfold stripL
  rw [h1, h2, List.reverse_reverse]

theorem stripL_collapse_strip (x : List Char) :
    stripL (collapseAux (stripL x) false) = collapseAux (stripL x) false := by
  apply stripL_eq_self
  · exact dropWhile_collapseAux _ (stripL_eq_dropWhile_self x)
  · apply dropWhile_eq_self_of_head
    intro c hc
    rw [List.head?_reverse] at hc
    exact collapseAux_last _ _ (stripL_last x) c hc

theorem clean_text_idem (s : String) : clean_text (clean_text s) = clean_text s := by
  apply String.ext
  rw [clean_text_data, clean_text_data, stripL_collapse_strip, collapseAux_idem]

/-! Characterization of `remove_footer_lines` on text without line
boundaries — the shape of everything `clean_text` produces. -/

theorem splitlinesAux_no_lb (l : List Char) (acc : List Char)
    (h : ∀ c ∈ l, isLb c = false) :
    splitlinesAux l acc
      = if acc.isEmpty && l.isEmpty then [] else [acc.reverse ++ l] := by
  induction l generalizing acc with
  | nil =>
    cases acc <;> simp [splitlinesAux]
  | cons c rest ih =>
    have hc : isLb c = false := h c (List.mem_cons_self _ _)
    cases rest with
    | nil =>
      simp [splitlinesAux, hc]
    | cons c2 cs =>
      have hr : (c = '\r' && c2 = '\n') = false := by
        rw [Bool.and_eq_false_iff]
        left
        rw [decide_eq_false_iff_not]
        intro hcr
        rw [hcr] at hc
        exact absurd hc (by decide)
      have h' : ∀ d ∈ c2 :: cs, isLb d = false :=
        fun d hd => h d (List.mem_cons_of_mem _ hd)
      rw [show splitlinesAux (c :: c2 :: cs) acc = splitlinesAux (c2 :: cs) (c :: acc) by
        simp [splitlinesAux, hr, hc]]
      rw [ih (c :: acc) h']
      simp

theorem intercalate_singleton (sep : List Char) (l : List Char) :
    List.intercalate sep [l] = l := by
  simp [List.intercalate]

/-- The value of the composed normalization pipeline: the collapsed text
survives unchanged unless it is empty or contains a footer phrase, in which
case everything is discarded. -/
theorem normalize_eq (s : String) :
    normalize s
      = if (clean_text s).data.isEmpty then ""
        else if lineHasPhrase (clean_text s).data then "" else clean_text s := by
  show remove_footer_lines (clean_text s) = _
  unfold remove_footer_lines
  have hnl : ∀ c ∈ (clean_text s).data, isLb c = false := by
    rw [clean_text_data]
    exact fun c hc => collapseAux_not_lb _ _ c hc
  rw [splitlinesAux_no_lb _ [] hnl]
  have hstrip : stripL (clean_text s).data = (clean_text s).data := by
    rw [clean_text_data]
    exact stripL_collapse_strip s.data
  by_cases he : (clean_text s).data.isEmpty = true
  · rw [if_pos (by simpa using he), if_pos he]
    rfl
  · rw [if_neg (by simpa using he), if_neg he]
    simp only [List.reverse_nil, List.nil_append, List.filterMap_cons,
      List.filterMap_nil, hstrip]
    rw [if_neg (by simpa using he)]
    by_cases hp : lineHasPhrase (clean_text s).data = true
    · rw [if_pos hp, if_pos hp]
      rfl
    · rw [if_neg hp, if_neg hp]
      rw [intercalate_singleton]

/-! Properties of the selector cascade. -/

theorem trySel_some_len {soup : NodeList} {sel : Sel} {t : String}
    (h : trySel soup sel = some t) : t.length > CONTENT_MIN_LENGTH := by
  cases hsel : select_one sel soup with
  | none =>
    simp only [trySel, hsel] at h
    exact Option.noConfusion h
  | some el =>
    simp only [trySel, hsel] at h
    by_cases hlen :
        (remove_footer_lines (clean_text (get_text el))).length > CONTENT_MIN_LENGTH
    · rw [if_pos hlen] at h
      cases h
      exact hlen
    · rw [if_neg hlen] at h
      cases h

theorem firstSel_none_iff (soup : NodeList) (l : List Sel) :
    firstSel soup l = none ↔ ∀ sel ∈ l, trySel soup sel = none := by
  induction l with
  | nil => simp [firstSel]
  | cons s rest ih =>
    cases h : trySel soup s with
    | some t => simp [firstSel, h, List.forall_mem_cons]
    | none => simp [firstSel, h, ih, List.forall_mem_cons]

theorem firstSel_some_len {soup : NodeList} {l : List Sel} {t : String}
    (h : firstSel soup l = some t) : t.length > CONTENT_MIN_LENGTH := by
  induction l with
  | nil => simp [firstSel] at h
  | cons s rest ih =>
    cases hs : trySel soup s with
    | some u =>
      simp only [firstSel, hs] at h
      cases h
      exact trySel_some_len hs
    | none =>
      simp only [firstSel, hs] at h
      exact ih h

theorem getD_cascade_spec (soup : NodeList) (l : List Sel) :
    (firstSel soup l).getD "Content not found" = "Content not found"
      ∨ ((firstSel soup l).getD "Content not found").length > CONTENT_MIN_LENGTH := by
  cases h : firstSel soup l with
  | none => left; rfl
  | some t =>
    right
    simpa using firstSel_some_len h

theorem livemintFold_inv (divs : List Node) (init : String × Nat)
    (h : init.1 = "" ∨ init.1.length > CONTENT_MIN_LENGTH) :
    (divs.foldl livemintFold init).1 = ""
      ∨ (divs.foldl livemintFold init).1.length > CONTENT_MIN_LENGTH := by
  induction divs generalizing init with
  | nil => exact h
  | cons d ds ih =>
    rw [List.foldl_cons]
    apply ih
    unfold livemintFold
    dsimp only
    split
    · split
      · exact h
      · rename_i hcond hskip
        simp only [Bool.and_eq_true, decide_eq_true_eq] at hcond
        right
        exact hcond.2
    · exact h

theorem livemintBest_spec (soup : NodeList) :
    livemintBest soup = "" ∨ (livemintBest soup).length > CONTENT_MIN_LENGTH :=
  livemintFold_inv _ _ (Or.inl rfl)

theorem livemint_spec (soup : NodeList) :
    scrape_livemint_enhanced soup = "Content not found"
      ∨ (scrape_livemint_enhanced soup).length > CONTENT_MIN_LENGTH := by
  cases h : firstSel soup livemintSelectors with
  | some t =>
    right
    rw [show scrape_livemint_enhanced soup = t by
      simp only [scrape_livemint_enhanced, h]]
    exact firstSel_some_len h
  | none =>
    rw [show scrape_livemint_enhanced soup
        = (if livemintBest soup ≠ "" then livemintBest soup
           else if (paraAggText soup).length > CONTENT_MIN_LENGTH then paraAggText soup
           else "Content not found") by
      simp only [scrape_livemint_enhanced, h]]
    by_cases hb : livemintBest soup ≠ ""
    · rw [if_pos hb]
      rcases livemintBest_spec soup with h1 | h2
      · exact absurd h1 hb
      · right; exact h2
    · rw [if_neg hb]
      by_cases hp : (paraAggText soup).length > CONTENT_MIN_LENGTH
      · rw [if_pos hp]; right; exact hp
      · rw [if_neg hp]; left; rfl

theorem pr_spec (soup : NodeList) :
    scrape_pr_newswire soup = "Content not found"
      ∨ (scrape_pr_newswire soup).length > CONTENT_MIN_LENGTH := by
  cases h : firstSel soup prNewswireSelectors with
  | some t =>
    right
    rw [show scrape_pr_newswire soup = t by simp only [scrape_pr_newswire, h]]
    exact firstSel_some_len h
  | none =>
    unfold scrape_pr_newswire
    rw [h]
    dsimp only
    split
    · left; rfl
    · split
      · rename_i hg
        right
        exact hg
      · left; rfl

theorem generic_spec (soup : NodeList) :
    scrape_generic soup = "Content not found"
      ∨ (scrape_generic soup).length > CONTENT_MIN_LENGTH := by
  unfold scrape_generic
  by_cases h : (paraAggText soup).length > CONTENT_MIN_LENGTH
  · rw [if_pos h]; right; exact h
  · rw [if_neg h]; left; rfl

theorem scraper_spec (source : String) (soup : NodeList) :
    get_scraper_for_source source soup = "Content not found"
      ∨ (get_scraper_for_source source soup).length > CONTENT_MIN_LENGTH := by
  unfold get_scraper_for_source
  simp only [apply_ite (fun g : NodeList → String => g soup)]
  by_cases h1 : source = "PR Newswire"
  · rw [if_pos h1]; exact pr_spec soup
  rw [if_neg h1]
  by_cases h2 : source = "Economic Times"
  · rw [if_pos h2]; exact getD_cascade_spec soup _
  rw [if_neg h2]
  by_cases h3 : source = "LiveMint"
  · rw [if_pos h3]; exact livemint_spec soup
  rw [if_neg h3]
  by_cases h4 : source = "The Hindu"
  · rw [if_pos h4]; exact getD_cascade_spec soup _
  rw [if_neg h4]
  by_cases h5 : source = "Zee News"
  · rw [if_pos h5]; exact getD_cascade_spec soup _
  rw [if_neg h5]
  by_cases h6 : source = "Hindustan Times"
  · rw [if_pos h6]; exact getD_cascade_spec soup _
  rw [if_neg h6]
  by_cases h7 : source = "India Today"
  · rw [if_pos h7]; exact getD_cascade_spec soup _
  rw [if_neg h7]
  by_cases h8 : source = "India TV News"
  · rw [if_pos h8]; exact getD_cascade_spec soup _
  rw [if_neg h8]
  by_cases h9 : source = "Times of India"
  · rw [if_pos h9]; exact getD_cascade_spec soup _
  rw [if_neg h9]
  by_cases h10 : source = "ET Now"
  · rw [if_pos h10]; exact getD_cascade_spec soup _
  rw [if_neg h10]
  by_cases h11 : source = "Indian Express"
  · rw [if_pos h11]; exact getD_cascade_spec soup _
  rw [if_neg h11]
  by_cases h12 : source = "News18"
  · rw [if_pos h12]; exact getD_cascade_spec soup _
  rw [if_neg h12]
  by_cases h13 : source = "Business Standard"
  · rw [if_pos h13]; exact getD_cascade_spec soup _
  rw [if_neg h13]
  by_cases h14 : source = "Deccan Herald"
  · rw [if_pos h14]; exact getD_cascade_spec soup _
  rw [if_neg h14]
  by_cases h15 : source = "Firstpost"
  · rw [if_pos h15]; exact getD_cascade_spec soup _
  rw [if_neg h15]
  by_cases h16 : source = "The Print"
  · rw [if_pos h16]; exact getD_cascade_spec soup _
  rw [if_neg h16]
  by_cases h17 : source = "The Wire"
  · rw [if_pos h17]; exact getD_cascade_spec soup _
  rw [if_neg h17]
  by_cases h18 : source = "Moneycontrol"
  · rw [if_pos h18]; exact getD_cascade_spec soup _
  rw [if_neg h18]
  by_cases h19 : source = "Free Press Journal"
  · rw [if_pos h19]; exact getD_cascade_spec soup _
  rw [if_neg h19]
  exact generic_spec soup

/-! Properties of the persistence merge. -/

theorem mem_newArticlesOf {existing articles : List Article} {a : Article} :
    a ∈ newArticlesOf existing articles
      ↔ a ∈ articles ∧ a.url ∉ existing.map (fun e => e.url) := by
  simp [newArticlesOf, List.mem_filter]

theorem newArticlesOf_sublist (existing articles : List Article) :
    List.Sublist (newArticlesOf existing articles) articles :=
  List.filter_sublist articles

theorem save_no_new {file : FileState} {articles : List Article}
    (h : newArticlesOf (loadExisting file) articles = []) :
    save_to_json file articles = (file, 0) := by
  simp [save_to_json, h]

theorem save_to_json_cases (file : FileState) (articles : List Article) :
    (newArticlesOf (loadExisting file) articles = []
      ∧ save_to_json file articles = (file, 0))
    ∨ (newArticlesOf (loadExisting file) articles ≠ []
      ∧ save_to_json file articles
        = (FileState.parsed
            (loadExisting file ++ newArticlesOf (loadExisting file) articles),
           (newArticlesOf (loadExisting file) articles).length)) := by
  by_cases h : (newArticlesOf (loadExisting file) articles).isEmpty = true
  · left
    have h2 := List.isEmpty_iff.mp h
    exact ⟨h2, save_no_new h2⟩
  · right
    constructor
    · intro h2
      rw [h2] at h
      exact h rfl
    · simp only [save_to_json]
      rw [if_neg h]

theorem loadExisting_save (file : FileState) (articles : List Article) :
    loadExisting (save_to_json file articles).1
      = loadExisting file ++ newArticlesOf (loadExisting file) articles := by
  rcases save_to_json_cases file articles with ⟨h1, h2⟩ | ⟨h1, h2⟩
  · rw [h2, h1, List.append_nil]
  · rw [h2]
    rfl

theorem newArticlesOf_after (existing articles : List Article) :
    newArticlesOf (existing ++ newArticlesOf existing articles) articles = [] := by
  unfold newArticlesOf
  rw [List.filter_eq_nil_iff]
  intro a ha
  simp only [decide_eq_true_eq, not_not]
  rw [List.map_append, List.mem_append]
  by_cases hm : a.url ∈ existing.map (fun e => e.url)
  · exact Or.inl hm
  · right
    have hmem : a ∈ List.filter
        (fun x => decide (x.url ∉ List.map (fun e => e.url) existing)) articles := by
      rw [List.mem_filter]
      exact ⟨ha, by simpa using hm⟩
    exact List.mem_map_of_mem (fun e => e.url) hmem

/-! Claim theorems. -/

/-- Claim C1: the spec mandates footer-line filtering on the pre-collapse
line structure, run before whitespace collapsing.  The code composes the
passes in the opposite order (`clean_text` first, `remove_footer_lines`
second) in every extraction path, so line boundaries are gone when the
footer filter runs: on a multi-line text whose middle line holds a footer
phrase the whole text is discarded, where the mandated order keeps the other
lines.  This theorem evaluates both orders at such an input. -/
theorem c1_footer_filter_runs_after_collapse :
    normalize "Good first line.\nSubscribe to our newsletter\nSecond good line." = ""
    ∧ normalizeSpec "Good first line.\nSubscribe to our newsletter\nSecond good line."
      = "Good first line. Second good line." :=
  ⟨by decide, by decide⟩

/-- Claim C2: there is no content validator in the code — `save_to_json`
persists every article whose URL is new, including an article whose content
is the exhaustion sentinel and one whose content is the empty string, both of
which the claim says are never written. -/
theorem c2_no_content_validation :
    save_to_json FileState.missing [A3, A4] = (FileState.parsed [A3, A4], 2)
    ∧ A3.content = "Content not found" ∧ A4.content = "" :=
  ⟨by decide, by decide, by decide⟩

/-- Claim C3 counterexample: a document on which every Economic Times profile
selector fails while paragraph aggregation passes the length gate.  The
claimed four-tier cascade would return the paragraph text, but the extractor
returns the exhaustion sentinel without trying the later tiers. -/
theorem c3_counterexample :
    scrape_economic_times etCounterDoc = "Content not found"
    ∧ scrape_generic etCounterDoc ≠ "Content not found"
    ∧ (paraAggText etCounterDoc).length > CONTENT_MIN_LENGTH :=
  ⟨by decide, by decide, by decide⟩

/-- Claim C3 amended: extraction is per-source rather than a uniform
four-tier cascade.  The Economic Times extractor runs only its profile
selector loop: it returns the exhaustion sentinel exactly when every profile
selector misses or fails the length gate, regardless of what paragraph
aggregation or whole-document salvage would find. -/
theorem c3_per_source_cascade (soup : NodeList) :
    scrape_economic_times soup = "Content not found"
      ↔ ∀ sel ∈ economicTimesSelectors, trySel soup sel = none := by
  unfold scrape_economic_times
  cases h : firstSel soup economicTimesSelectors with
  | none =>
    simp only [h, Option.getD_none]
    exact iff_of_true trivial ((firstSel_none_iff soup _).mp h)
  | some t =>
    simp only [h, Option.getD_some]
    constructor
    · intro ht
      have hlen := firstSel_some_len h
      rw [ht] at hlen
      exact absurd hlen (by decide)
    · intro hall
      rw [(firstSel_none_iff soup _).mpr hall] at h
      exact Option.noConfusion h

/-- Witness instantiating the amended C3 theorem on a concrete document. -/
theorem c3_per_source_cascade_witness :
    scrape_economic_times NodeList.nil = "Content not found" :=
  (c3_per_source_cascade NodeList.nil).mpr (by decide)

/-- Claim C4: the acceptance gate is exclusive at `CONTENT_MIN_LENGTH` = 200
for every strategy: the per-selector loop every per-source scraper runs
(`trySel`), paragraph aggregation (`scrape_generic`), the LiveMint
largest-text-block step (`livemintFold`), the LiveMint final paragraph
fallback, and the PR Newswire paragraph fallback all reject a candidate whose
normalized length is exactly 200 (the cascade continues) and accept one of
201 characters (the candidate is returned). -/
theorem c4_acceptance_boundary :
    (∀ (soup : NodeList) (sel : Sel) (el : Node), select_one sel soup = some el →
      (((remove_footer_lines (clean_text (get_text el))).length = 200 →
          trySel soup sel = none)
        ∧ ((remove_footer_lines (clean_text (get_text el))).length = 201 →
          trySel soup sel = some (remove_footer_lines (clean_text (get_text el))))))
    ∧ (∀ soup : NodeList,
        (((paraAggText soup).length = 200 →
          scrape_generic soup = "Content not found")
        ∧ ((paraAggText soup).length = 201 →
          scrape_generic soup = paraAggText soup)))
    ∧ (∀ (best : String × Nat) (d : Node),
        (((remove_footer_lines (clean_text (get_text d))).length = 200 →
          livemintFold best d = best)
        ∧ (best.2 < 201 →
          (remove_footer_lines (clean_text (get_text d))).length = 201 →
          skipWords.any (fun w => isSubL (lowerL w.data)
            (lowerL (remove_footer_lines (clean_text (get_text d))).data)) = false →
          livemintFold best d
            = (remove_footer_lines (clean_text (get_text d)), 201))))
    ∧ (∀ soup : NodeList, firstSel soup livemintSelectors = none →
        livemintBest soup = "" →
        (((paraAggText soup).length = 200 →
          scrape_livemint_enhanced soup = "Content not found")
        ∧ ((paraAggText soup).length = 201 →
          scrape_livemint_enhanced soup = paraAggText soup)))
    ∧ (∀ soup : NodeList, firstSel soup prNewswireSelectors = none →
        (releaseBodyParasIn false soup).isEmpty = false →
        (((prFallbackText soup).length = 200 →
          scrape_pr_newswire soup = "Content not found")
        ∧ ((prFallbackText soup).length = 201 →
          scrape_pr_newswire soup = prFallbackText soup))) := by
  refine ⟨?_, ?_, ?_, ?_, ?_⟩
  · intro soup sel el hsel
    constructor
    · intro h
      simp only [trySel, hsel]
      rw [if_neg (by rw [h]; decide)]
    · intro h
      simp only [trySel, hsel]
      rw [if_pos (by rw [h]; decide)]
  · intro soup
    constructor
    · intro h
      unfold scrape_generic
      rw [if_neg (by rw [h]; decide)]
    · intro h
      unfold scrape_generic
      rw [if_pos (by rw [h]; decide)]
  · intro best d
    constructor
    · intro h
      unfold livemintFold
      dsimp only
      rw [if_neg (by
        rw [h]
        simp only [Bool.and_eq_true, decide_eq_true_eq, CONTENT_MIN_LENGTH, not_and]
        omega)]
    · intro hb h hskip
      unfold livemintFold
      dsimp only
      rw [if_pos (by
          rw [h]
          simp only [Bool.and_eq_true, decide_eq_true_eq, CONTENT_MIN_LENGTH]
          omega),
        if_neg (by simp [hskip])]
      rw [h]
  · intro soup h1 h2
    constructor
    · intro h
      unfold scrape_livemint_enhanced
      rw [h1]
      dsimp only
      rw [if_neg (by simp [h2]), if_neg (by rw [h]; decide)]
    · intro h
      unfold scrape_livemint_enhanced
      rw [h1]
      dsimp only
      rw [if_neg (by simp [h2]), if_pos (by rw [h]; decide)]
  · intro soup h1 h2
    have h2' : ¬ ((releaseBodyParasIn false soup).isEmpty = true) := by simp [h2]
    constructor
    · intro h
      unfold prFallbackText at h
      unfold scrape_pr_newswire
      rw [h1]
      dsimp only
      rw [if_neg h2', if_neg (by rw [h]; decide)]
    · intro h
      unfold prFallbackText at h
      unfold scrape_pr_newswire
      rw [h1]
      dsimp only
      rw [if_neg h2', if_pos (by rw [h]; decide)]
      rfl

/-- Witness for C4: concrete 200- and 201-character candidates exercising
every strategy gate — the selector loop, plain paragraph aggregation, the
LiveMint largest-block step, the LiveMint final paragraph fallback and the
PR Newswire paragraph fallback. -/
theorem c4_acceptance_boundary_witness :
    (trySel doc200 (Sel.tag "p") = none
      ∧ trySel doc201 (Sel.tag "p")
          = some (remove_footer_lines (clean_text
              (get_text (pNode (String.mk (List.replicate 201 'a')))))))
    ∧ (scrape_generic doc200 = "Content not found"
      ∧ scrape_generic doc201 = paraAggText doc201)
    ∧ (livemintFold ("", 0) (pNode (String.mk (List.replicate 200 'a'))) = ("", 0)
      ∧ livemintFold ("", 0) (pNode (String.mk (List.replicate 201 'a')))
          = (remove_footer_lines (clean_text
              (get_text (pNode (String.mk (List.replicate 201 'a'))))), 201))
    ∧ (scrape_livemint_enhanced doc200 = "Content not found"
      ∧ scrape_livemint_enhanced doc201 = paraAggText doc201)
    ∧ (scrape_pr_newswire prDoc200 = "Content not found"
      ∧ scrape_pr_newswire prDoc201 = prFallbackText prDoc201) := by
  refine ⟨⟨?_, ?_⟩, ⟨?_, ?_⟩, ⟨?_, ?_⟩, ⟨?_, ?_⟩, ⟨?_, ?_⟩⟩
  · exact (c4_acceptance_boundary.1 doc200 (Sel.tag "p")
      (pNode (String.mk (List.replicate 200 'a'))) rfl).1 (by decide)
  · exact (c4_acceptance_boundary.1 doc201 (Sel.tag "p")
      (pNode (String.mk (List.replicate 201 'a'))) rfl).2 (by decide)
  · exact (c4_acceptance_boundary.2.1 doc200).1 (by decide)
  · exact (c4_acceptance_boundary.2.1 doc201).2 (by decide)
  · exact (c4_acceptance_boundary.2.2.1 ("", 0)
      (pNode (String.mk (List.replicate 200 'a')))).1 (by decide)
  · exact (c4_acceptance_boundary.2.2.1 ("", 0)
      (pNode (String.mk (List.replicate 201 'a')))).2 (by decide) (by decide)
      (by decide)
  · exact (c4_acceptance_boundary.2.2.2.1 doc200 (by decide) (by decide)).1 (by decide)
  · exact (c4_acceptance_boundary.2.2.2.1 doc201 (by decide) (by decide)).2 (by decide)
  · exact (c4_acceptance_boundary.2.2.2.2 prDoc200 (by decide) (by decide)).1 (by decide)
  · exact (c4_acceptance_boundary.2.2.2.2 prDoc201 (by decide) (by decide)).2 (by decide)

/-- Claim C5: merge computes the URL set difference of the batch against the
existing collection, appends exactly that difference in encounter order
leaving existing entries untouched, reports its size, and performs no durable
write when nothing is new. -/
theorem c5_merge_contract (file : FileState) (articles : List Article) :
    ((save_to_json file articles).2 = 0 → (save_to_json file articles).1 = file)
    ∧ ((save_to_json file articles).2 ≠ 0 →
        (save_to_json file articles).1
          = FileState.parsed
              (loadExisting file ++ newArticlesOf (loadExisting file) articles))
    ∧ List.Sublist (newArticlesOf (loadExisting file) articles) articles
    ∧ (∀ a ∈ newArticlesOf (loadExisting file) articles,
        a.url ∉ (loadExisting file).map (fun e => e.url))
    ∧ (∀ a ∈ articles, a.url ∉ (loadExisting file).map (fun e => e.url) →
        a ∈ newArticlesOf (loadExisting file) articles)
    ∧ (save_to_json file articles).2
        = (newArticlesOf (loadExisting file) articles).length := by
  rcases save_to_json_cases file articles with ⟨h1, h2⟩ | ⟨h1, h2⟩
  · refine ⟨fun _ => by rw [h2], ?_, newArticlesOf_sublist _ _,
      fun a ha => (mem_newArticlesOf.mp ha).2,
      fun a ha hu => mem_newArticlesOf.mpr ⟨ha, hu⟩, ?_⟩
    · intro hn
      exact absurd (by rw [h2]) hn
    · rw [h2, h1]
      rfl
  · refine ⟨?_, fun _ => by rw [h2], newArticlesOf_sublist _ _,
      fun a ha => (mem_newArticlesOf.mp ha).2,
      fun a ha hu => mem_newArticlesOf.mpr ⟨ha, hu⟩, by rw [h2]⟩
    intro h0
    rw [h2] at h0
    simp only at h0
    rw [List.length_eq_zero] at h0
    exact absurd h0 h1

/-- Witness for C5: a batch with no new URL triggers the no-write
short-circuit, and an unseen URL is part of the computed difference. -/
theorem c5_merge_contract_witness :
    (save_to_json (FileState.parsed [A1]) [A1]).2 = 0
    ∧ (save_to_json (FileState.parsed [A1]) [A1]).1 = FileState.parsed [A1]
    ∧ A2 ∈ newArticlesOf (loadExisting (FileState.parsed [A1])) [A1, A2] :=
  ⟨by decide,
   (c5_merge_contract (FileState.parsed [A1]) [A1]).1 (by decide),
   (c5_merge_contract (FileState.parsed [A1]) [A1, A2]).2.2.2.2.1 A2 (by decide)
     (by decide)⟩

/-- Claim C6 counterexample: merging a batch that repeats a URL internally
into a duplicate-free (empty) collection produces a collection in which two
entries share a URL — the merge filters the batch against existing URLs only,
not against itself. -/
theorem c6_counterexample :
    ((loadExisting FileState.missing).map (fun a => a.url)).Nodup
    ∧ ¬ ((loadExisting (save_to_json FileState.missing [A1, A1]).1).map
          (fun a => a.url)).Nodup :=
  ⟨by decide, by decide⟩

/-- Claim C6 amended: provided the batch itself repeats no URL, merging
preserves the no-duplicate-URL invariant of the stored collection. -/
theorem c6_merge_preserves_nodup (file : FileState) (articles : List Article)
    (h1 : ((loadExisting file).map (fun a => a.url)).Nodup)
    (h2 : (articles.map (fun a => a.url)).Nodup) :
    ((loadExisting (save_to_json file articles).1).map (fun a => a.url)).Nodup := by
  rw [loadExisting_save, List.map_append, List.nodup_append]
  refine ⟨h1, ?_, ?_⟩
  · exact h2.sublist ((newArticlesOf_sublist _ _).map _)
  · intro u hu1 hu2
    rcases List.mem_map.mp hu2 with ⟨a, ha, rfl⟩
    exact absurd hu1 (mem_newArticlesOf.mp ha).2

/-- Witness instantiating the amended C6 theorem on concrete data. -/
theorem c6_merge_preserves_nodup_witness :
    ((loadExisting (save_to_json (FileState.parsed [A1]) [A2]).1).map
      (fun a => a.url)).Nodup :=
  c6_merge_preserves_nodup (FileState.parsed [A1]) [A2] (by decide) (by decide)

/-- Claim C7: merging the same batch a second time inserts nothing — the
collection is unchanged and the inserted count is 0, so the second merge
takes the no-write short-circuit. -/
theorem c7_merge_idempotent (file : FileState) (articles : List Article) :
    save_to_json (save_to_json file articles).1 articles
      = ((save_to_json file articles).1, 0) := by
  apply save_no_new
  rw [loadExisting_save]
  exact newArticlesOf_after _ _

/-- Claim C8: the normalization pipeline composed by every extraction path
(`clean_text` then `remove_footer_lines`) is idempotent. -/
theorem c8_normalize_idempotent (s : String) :
    normalize (normalize s) = normalize s := by
  by_cases h1 : (clean_text s).data.isEmpty = true
  · rw [normalize_eq s, if_pos h1]
    decide
  · by_cases h2 : lineHasPhrase (clean_text s).data = true
    · rw [normalize_eq s, if_neg h1, if_pos h2]
      decide
    · rw [normalize_eq s, if_neg h1, if_neg h2]
      rw [normalize_eq (clean_text s), clean_text_idem]
      rw [if_neg h1, if_neg h2]

/-- Claim C9: a fetch failure (modelled by `get_page_content` returning no
document) yields an article with empty content and never the sentinel; with a
parsed document every scraper yields either the sentinel or text longer than
the gate, never the empty string — the two failure modes are
distinguishable. -/
theorem c9_failure_modes (url source : String) :
    (scrape_article url source none).content = ""
    ∧ (scrape_article url source none).content ≠ "Content not found"
    ∧ ∀ soup : NodeList,
        ((scrape_article url source (some soup)).content = "Content not found"
          ∨ (scrape_article url source (some soup)).content.length
              > CONTENT_MIN_LENGTH)
        ∧ (scrape_article url source (some soup)).content ≠ "" := by
  refine ⟨rfl, (by decide : ("" : String) ≠ "Content not found"),
    fun soup => ⟨scraper_spec source soup, ?_⟩⟩
  rcases scraper_spec source soup with h | h
  · intro hc
    have hc2 : get_scraper_for_source source soup = "" := hc
    rw [hc2] at h
    exact absurd h (by decide)
  · intro hc
    have hc2 : get_scraper_for_source source soup = "" := hc
    rw [hc2] at h
    exact absurd h (by decide)

/-- Witness instantiating C9 at a concrete URL, source and document. -/
theorem c9_failure_modes_witness :
    (scrape_article "https://example.com/x" "Economic Times" none).content = ""
    ∧ ((scrape_article "https://example.com/x" "Economic Times"
          (some etCounterDoc)).content = "Content not found"
        ∨ (scrape_article "https://example.com/x" "Economic Times"
            (some etCounterDoc)).content.length > CONTENT_MIN_LENGTH) :=
  ⟨(c9_failure_modes "https://example.com/x" "Economic Times").1,
   ((c9_failure_modes "https://example.com/x" "Economic Times").2.2 etCounterDoc).1⟩

/-- Claim C10: whenever the whitespace-collapsed form of the input contains a
footer phrase case-insensitively, the composed pipeline returns the empty
string — the entire text is discarded, not merely the offending line. -/
theorem c10_phrase_discards_everything (s : String)
    (h : lineHasPhrase (clean_text s).data = true) :
    normalize s = "" := by
  rw [normalize_eq s]
  by_cases h1 : (clean_text s).data.isEmpty = true
  · rw [if_pos h1]
  · rw [if_neg h1, if_pos h]

/-- Witness for C10: a single-line article text containing one footer phrase
is discarded wholesale. -/
theorem c10_phrase_discards_everything_witness :
    lineHasPhrase (clean_text "Markets rallied today. Subscribe to read more.").data
      = true
    ∧ normalize "Markets rallied today. Subscribe to read more." = "" :=
  ⟨by decide, c10_phrase_discards_everything _ (by decide)⟩

end NewScraper
